import Mathlib

/-!
Shallow embedding of the Advanced POS System checkout engine:
the cart accumulator (`CartService`), the transaction state machine
(`Transaction`), the API-level lifecycle handlers (`APIService`), and the
permission-gated request dispatcher.  Monetary values are modelled as exact
rationals; rounding to two decimals follows the round-half-up policy the
code's `toFixed(2)` rounding realises.  Timestamps are modelled as natural
numbers passed in explicitly.
-/

namespace POS

/-- Round a rational to 2 decimal places, half-up: `parseFloat(x.toFixed(2))`. -/
def round2 (x : ℚ) : ℚ := (((x * 100 + 1 / 2).floor : ℤ) : ℚ) / 100

/-- A catalog product record (`Product` model): id, name, price, taxRate, stock. -/
structure Product where
  id : String
  name : String
  price : ℚ
  taxRate : ℚ
  stock : ℚ
deriving DecidableEq

/-- A cart line item as pushed by `CartService.addItem`. -/
structure CartItem where
  productId : String
  name : String
  price : ℚ
  taxRate : ℚ
  quantity : ℚ
  recognitionMethod : String
  recognitionConfidence : ℚ
deriving DecidableEq

/-- The mutable state of `CartService`. -/
structure Cart where
  items : List CartItem
  subtotal : ℚ
  taxAmount : ℚ
  discountAmount : ℚ
  total : ℚ
  customerId : Option String
  notes : String
deriving DecidableEq

/-- The state `CartService`'s constructor and `clearCart` establish. -/
def emptyCart : Cart :=
  { items := [], subtotal := 0, taxAmount := 0, discountAmount := 0,
    total := 0, customerId := none, notes := "" }

/-- Source: `items.reduce((sum, item) => sum + item.price * item.quantity, 0)`. -/
def rawSubtotal (items : List CartItem) : ℚ :=
  (items.map (fun it => it.price * it.quantity)).sum

/-- Source: `items.reduce((sum, item) => sum + (item.taxRate ? price*qty*(taxRate/100) : 0), 0)`. -/
def rawTax (items : List CartItem) : ℚ :=
  (items.map (fun it =>
    if it.taxRate = 0 then 0 else it.price * it.quantity * (it.taxRate / 100))).sum

/-- Source: `CartService.calculateTotals`: recompute subtotal and tax from the lines at
full precision, compute the total from the still-unrounded sums, then round
each of the three stored values to 2 decimals independently. -/
def CartService.calculateTotals (c : Cart) : Cart :=
  let sub := rawSubtotal c.items
  let tax := rawTax c.items
  let tot := sub + tax - c.discountAmount
  { c with subtotal := round2 sub, taxAmount := round2 tax, total := round2 tot }

/-- Result envelope `{success, message}` returned by the cart operations. -/
structure CartResult where
  success : Bool
  message : String
deriving DecidableEq

/-- Transaction status: `pending`, `completed` or `voided`. -/
inductive TxnStatus where
  | pending
  | completed
  | voided
deriving DecidableEq

/-- A payment entry stored on a transaction (`{type, amount, reference, timestamp}`). -/
structure PaymentEntry where
  type : String
  amount : ℚ
  reference : Option String
  timestamp : Nat
deriving DecidableEq

/-- A payment method as supplied by the caller, before the timestamp is attached. -/
structure PaymentInput where
  type : String
  amount : ℚ
  reference : Option String
deriving DecidableEq

/-- A line snapshot on a transaction (`priceAtSale`/`taxRateAtSale` frozen). -/
structure TxnItem where
  productId : String
  name : String
  priceAtSale : ℚ
  taxRateAtSale : ℚ
  quantity : ℚ
  recognitionMethod : String
  recognitionConfidence : ℚ
deriving DecidableEq

/-- The `Transaction` model's state. -/
structure Transaction where
  id : String
  items : List TxnItem
  subtotal : ℚ
  taxAmount : ℚ
  discountAmount : ℚ
  total : ℚ
  status : TxnStatus
  paymentMethods : List PaymentEntry
  customerId : Option String
  employeeId : Option String
  storeId : Option String
  notes : String
  createdAt : Nat
  completedAt : Option Nat
  voidedAt : Option Nat
deriving DecidableEq

/-- Source: `Σ paymentMethods.amount` as computed inside `Transaction.complete`. -/
def totalPaid (t : Transaction) : ℚ := (t.paymentMethods.map (·.amount)).sum

/-- Source: `Transaction.addPaymentMethod`: the guard `!paymentMethod.type ||
!paymentMethod.amount` rejects an empty type or a zero amount (JS falsiness);
any other amount, negative included, is appended.  No status check is made. -/
def Transaction.addPaymentMethod (pm : PaymentInput) (now : Nat) (t : Transaction) :
    Bool × Transaction :=
  if pm.type = "" ∨ pm.amount = 0 then (false, t)
  else (true, { t with paymentMethods :=
    t.paymentMethods ++ [⟨pm.type, pm.amount, pm.reference, now⟩] })

/-- Source: `Transaction.complete`: only from `pending`; fails when the paid sum is
below `total`; on success sets `status = completed` and `completedAt`. -/
def Transaction.complete (now : Nat) (t : Transaction) : Bool × Transaction :=
  if t.status ≠ TxnStatus.pending then (false, t)
  else if totalPaid t < t.total then (false, t)
  else (true, { t with status := TxnStatus.completed, completedAt := some now })

/-- Source: `Transaction.void`: fails when already voided; otherwise sets
`status = voided`, `voidedAt`, and appends the reason to `notes`. -/
def Transaction.voidTxn (reason : String) (now : Nat) (t : Transaction) :
    Bool × Transaction :=
  if t.status = TxnStatus.voided then (false, t)
  else
    (true,
      { t with
        status := TxnStatus.voided
        voidedAt := some now
        notes := t.notes ++ (if reason ≠ "" then "\nVoided: " ++ reason else "\nVoided") })

/-- Source: `Transaction.validate` reduced to its boolean verdict (`isValid`). -/
def Transaction.isValid (t : Transaction) : Bool :=
  !t.items.isEmpty && decide (0 ≤ t.subtotal) && decide (0 ≤ t.taxAmount)
    && decide (0 ≤ t.discountAmount) && t.employeeId.isSome && t.storeId.isSome

/-- The shared keyed store (`DatabaseService`) restricted to the two maps the
checkout engine touches: products and transactions, keyed by id. -/
structure Db where
  products : String → Option Product
  transactions : String → Option Transaction

/-- Source: `DatabaseService.getProductById`. -/
def Db.getProductById (db : Db) (id : String) : Option Product := db.products id

/-- Source: `DatabaseService.saveProduct`: no-op when the id is falsy, else upsert by id. -/
def Db.saveProduct (db : Db) (p : Product) : Db :=
  if p.id = "" then db
  else { db with products := fun i => if i = p.id then some p else db.products i }

/-- Source: `DatabaseService.saveTransaction`: fails on a falsy id, else upserts by id. -/
def Db.saveTransactionChecked (db : Db) (t : Transaction) : Bool × Db :=
  if t.id = "" then (false, db)
  else (true, { db with transactions := fun i => if i = t.id then some t else db.transactions i })

/-- Store well-formedness: every stored product sits under its own (non-empty) id. -/
def Db.WF (db : Db) : Prop :=
  ∀ pid p, db.products pid = some p → p.id = pid ∧ pid ≠ ""

/-- Source: `CartService.addItem`: product lookup, quantity guard, stock guard
(against the added quantity), then merge into an existing line keyed by
`productId` or push a new line, and recompute totals. -/
def CartService.addItem (db : Db) (productId : String) (quantity : ℚ)
    (recognitionMethod : String) (recognitionConfidence : ℚ) (c : Cart) :
    CartResult × Cart :=
  match db.getProductById productId with
  | none => (⟨false, "Product not found"⟩, c)
  | some product =>
    if quantity ≤ 0 then (⟨false, "Quantity must be greater than zero"⟩, c)
    else if product.stock < quantity then (⟨false, "Insufficient stock"⟩, c)
    else
      let items :=
        if c.items.any (fun it => it.productId = productId) then
          addQtyFirst productId quantity c.items
        else
          c.items ++ [⟨product.id, product.name, product.price, product.taxRate,
            quantity, recognitionMethod, recognitionConfidence⟩]
      (⟨true, "Item added to cart"⟩, CartService.calculateTotals { c with items := items })
where
  /-- Source: `items[existingItemIndex].quantity += quantity` on the first line keyed
  by the product id. -/
  addQtyFirst (pid : String) (q : ℚ) : List CartItem → List CartItem
    | [] => []
    | it :: rest =>
      if it.productId = pid then { it with quantity := it.quantity + q } :: rest
      else it :: addQtyFirst pid q rest

/-- Source: `CartService.removeItem`: filter the line out; failure when nothing was
removed; otherwise recompute totals. -/
def CartService.removeItem (productId : String) (c : Cart) : CartResult × Cart :=
  let items := c.items.filter (fun it => it.productId ≠ productId)
  if items.length = c.items.length then (⟨false, "Item not found in cart"⟩, c)
  else (⟨true, "Item removed from cart"⟩, CartService.calculateTotals { c with items := items })

/-- Source: `item.quantity = quantity` on the first line keyed by the product id. -/
def setQtyFirst (pid : String) (q : ℚ) : List CartItem → List CartItem
  | [] => []
  | it :: rest =>
    if it.productId = pid then { it with quantity := q } :: rest
    else it :: setQtyFirst pid q rest

/-- Source: `CartService.updateItemQuantity`: non-positive quantity delegates to
`removeItem`; otherwise line lookup, product lookup, stock guard, assignment
of the new quantity and totals recomputation. -/
def CartService.updateItemQuantity (db : Db) (productId : String) (quantity : ℚ)
    (c : Cart) : CartResult × Cart :=
  if quantity ≤ 0 then CartService.removeItem productId c
  else if ¬ c.items.any (fun it => it.productId = productId) then
    (⟨false, "Item not found in cart"⟩, c)
  else
    match db.getProductById productId with
    | none => (⟨false, "Product not found"⟩, c)
    | some product =>
      if product.stock < quantity then (⟨false, "Insufficient stock"⟩, c)
      else
        (⟨true, "Item quantity updated"⟩,
          CartService.calculateTotals { c with items := setQtyFirst productId quantity c.items })

/-- Source: `CartService.applyDiscount`: rejects a negative amount and an amount above
the stored subtotal; on success stores the amount and recomputes totals. -/
def CartService.applyDiscount (amount : ℚ) (c : Cart) : CartResult × Cart :=
  if amount < 0 then (⟨false, "Invalid discount amount"⟩, c)
  else if c.subtotal < amount then (⟨false, "Discount cannot exceed subtotal"⟩, c)
  else
    (⟨true, "Discount applied"⟩,
      CartService.calculateTotals { c with discountAmount := amount })

/-- Source: `CartService.clearCart`: reset to the constructor state. -/
def CartService.clearCart (_c : Cart) : CartResult × Cart :=
  (⟨true, "Cart cleared"⟩, emptyCart)

/-- The cart operations claim C1 and C6 quantify over. -/
inductive CartOp where
  | add (db : Db) (productId : String) (quantity : ℚ)
      (recognitionMethod : String) (recognitionConfidence : ℚ)
  | remove (productId : String)
  | setQty (db : Db) (productId : String) (quantity : ℚ)
  | discount (amount : ℚ)

/-- State transition of one cart operation (the result envelope dropped). -/
def CartOp.apply (c : Cart) : CartOp → Cart
  | .add db pid q m conf => (CartService.addItem db pid q m conf c).2
  | .remove pid => (CartService.removeItem pid c).2
  | .setQty db pid q => (CartService.updateItemQuantity db pid q c).2
  | .discount a => (CartService.applyDiscount a c).2

/-- Run a sequence of cart operations. -/
def runOps (c : Cart) (ops : List CartOp) : Cart := ops.foldl CartOp.apply c

/-- The stored-totals invariant: each of the three monetary fields equals the
round-half-up 2-decimal rounding of the corresponding full-precision sum, the
total being rounded from the unrounded subtotal and tax. -/
def cartInv (c : Cart) : Prop :=
  c.subtotal = round2 (rawSubtotal c.items) ∧
  c.taxAmount = round2 (rawTax c.items) ∧
  c.total = round2 (rawSubtotal c.items + rawTax c.items - c.discountAmount)

lemma round2_zero : round2 0 = 0 := by
  norm_num [round2, Rat.floor_def']

lemma cartInv_calculateTotals (c : Cart) : cartInv (CartService.calculateTotals c) := by
  simp [cartInv, CartService.calculateTotals]

lemma cartInv_emptyCart : cartInv emptyCart := by
  simp [cartInv, emptyCart, rawSubtotal, rawTax, round2_zero]

lemma cartInv_apply (c : Cart) (op : CartOp) (h : cartInv c) : cartInv (op.apply c) := by
  cases op with
  | add db pid q m conf =>
    simp only [CartOp.apply, CartService.addItem]
    cases db.getProductById pid with
    | none => exact h
    | some p =>
      dsimp only
      split
      · exact h
      · split
        · exact h
        · exact cartInv_calculateTotals _
  | remove pid =>
    simp only [CartOp.apply, CartService.removeItem]
    split
    · exact h
    · exact cartInv_calculateTotals _
  | setQty db pid q =>
    simp only [CartOp.apply, CartService.updateItemQuantity]
    split
    · simp only [CartService.removeItem]
      split
      · exact h
      · exact cartInv_calculateTotals _
    · split
      · exact h
      · cases db.getProductById pid with
        | none => exact h
        | some p =>
          dsimp only
          split
          · exact h
          · exact cartInv_calculateTotals _
  | discount a =>
    simp only [CartOp.apply, CartService.applyDiscount]
    split
    · exact h
    · split
      · exact h
      · exact cartInv_calculateTotals _

lemma cartInv_runOps (c : Cart) (ops : List CartOp) (h : cartInv c) :
    cartInv (runOps c ops) := by
  induction ops generalizing c with
  | nil => exact h
  | cons op rest ih => exact ih _ (cartInv_apply _ _ h)

/-- C1.  For every cart state reached from the initial cart by any sequence of
add / remove / update-quantity / apply-discount operations, the stored
`subtotal` equals the 2-decimal round-half-up rounding of
`Σ unitPrice·quantity` over the surviving lines, the stored `taxAmount`
equals the rounding of `Σ unitPrice·quantity·taxRatePercent/100`, and the
stored `total` equals the rounding of `subtotal + taxAmount − discountAmount`
computed from the full-precision (unrounded) running sums — never derived from
the previously rounded values. -/
theorem cart_totals_invariant (ops : List CartOp) : cartInv (runOps emptyCart ops) :=
  cartInv_runOps emptyCart ops cartInv_emptyCart

/-! ### Concrete stores used for counterexamples and witnesses -/

/-- A catalog holding a single product and no transactions. -/
def oneProductDb (p : Product) : Db :=
  { products := fun pid => if pid = p.id then some p else none,
    transactions := fun _ => none }

/-- A widget priced 10, no tax, stock 5. -/
def prodStock5 : Product := ⟨"p1", "Widget", 10, 0, 5⟩

/-- A widget priced 10, no tax, stock 4. -/
def prodStock4 : Product := ⟨"p1", "Widget", 10, 0, 4⟩

/-- The cart operations leading to the C6 violation: add one unit at price 10,
apply the full-subtotal discount 10, then remove the line. -/
def opsC6 : List CartOp :=
  [CartOp.add (oneProductDb prodStock5) "p1" 1 "manual" 1,
   CartOp.discount 10,
   CartOp.remove "p1"]

lemma runOps_opsC6 :
    runOps emptyCart opsC6 =
      { items := [], subtotal := 0, taxAmount := 0, discountAmount := 10,
        total := -10, customerId := none, notes := "" } := by
  norm_num [runOps, opsC6, CartOp.apply, CartService.addItem,
    CartService.applyDiscount, CartService.removeItem, CartService.calculateTotals,
    oneProductDb, prodStock5, Db.getProductById, emptyCart, rawSubtotal, rawTax,
    round2, Rat.floor_def']

/-- C6, counterexample.  The cart state reached by add → apply-discount →
remove has `discountAmount = 10 > 0 = subtotal`: the bound
`discountAmount ≤ subtotal` does not hold in every reachable state. -/
theorem discount_exceeds_subtotal_cex :
    (runOps emptyCart opsC6).subtotal < (runOps emptyCart opsC6).discountAmount := by
  rw [runOps_opsC6]
  norm_num

/-- C6, amended.  The bound is enforced at apply-time only: whenever
`applyDiscount` succeeds on a reachable cart state, the resulting state
satisfies `discountAmount ≤ subtotal`; subsequent remove/update operations can
shrink the subtotal below the stored discount. -/
theorem applyDiscount_bound_at_apply_time (ops : List CartOp) (amount : ℚ)
    (hs : (CartService.applyDiscount amount (runOps emptyCart ops)).1.success = true) :
    (CartService.applyDiscount amount (runOps emptyCart ops)).2.discountAmount ≤
      (CartService.applyDiscount amount (runOps emptyCart ops)).2.subtotal := by
  have hinv := cartInv_runOps emptyCart ops cartInv_emptyCart
  by_cases h1 : amount < 0
  · simp [CartService.applyDiscount, h1] at hs
  · by_cases h2 : (runOps emptyCart ops).subtotal < amount
    · simp [CartService.applyDiscount, h1, h2] at hs
    · simp only [CartService.applyDiscount, h1, if_false, h2,
        CartService.calculateTotals]
      calc amount ≤ (runOps emptyCart ops).subtotal := not_lt.mp h2
        _ = round2 (rawSubtotal (runOps emptyCart ops).items) := hinv.1

lemma runOps_oneAdd :
    runOps emptyCart [CartOp.add (oneProductDb prodStock5) "p1" 1 "manual" 1] =
      { items := [⟨"p1", "Widget", 10, 0, 1, "manual", 1⟩], subtotal := 10,
        taxAmount := 0, discountAmount := 0, total := 10,
        customerId := none, notes := "" } := by
  norm_num [runOps, CartOp.apply, CartService.addItem,
    CartService.calculateTotals, oneProductDb, prodStock5, Db.getProductById,
    emptyCart, rawSubtotal, rawTax, round2, Rat.floor_def']

/-- C6 witness: applying discount 5 to the reachable cart holding one unit at
price 10 succeeds and leaves `discountAmount ≤ subtotal`. -/
theorem applyDiscount_bound_witness :
    (CartService.applyDiscount 5
        (runOps emptyCart [CartOp.add (oneProductDb prodStock5) "p1" 1 "manual" 1])).2.discountAmount ≤
      (CartService.applyDiscount 5
        (runOps emptyCart [CartOp.add (oneProductDb prodStock5) "p1" 1 "manual" 1])).2.subtotal := by
  apply applyDiscount_bound_at_apply_time
  rw [runOps_oneAdd]
  norm_num [CartService.applyDiscount]

/-! ### C7: stock check on adding an already-present product -/

/-- The cart holding 3 units of `p1`, reached by one `addItem` against the
stock-4 catalog. -/
def cartWith3 : Cart :=
  (CartService.addItem (oneProductDb prodStock4) "p1" 3 "manual" 1 emptyCart).2

lemma cartWith3_eq :
    cartWith3 =
      { items := [⟨"p1", "Widget", 10, 0, 3, "manual", 1⟩], subtotal := 30,
        taxAmount := 0, discountAmount := 0, total := 30,
        customerId := none, notes := "" } := by
  norm_num [cartWith3, CartService.addItem, CartService.calculateTotals,
    oneProductDb, prodStock4, Db.getProductById, emptyCart, rawSubtotal, rawTax,
    round2, Rat.floor_def']

/-- C7, counterexample.  With catalog stock 4 and 3 units already in the cart,
adding 2 more units raises the line's total to 5 > 4, yet `addItem` succeeds:
the stock check compares the catalog stock with the added quantity only, not
with the line's new total. -/
theorem addItem_newTotal_check_cex :
    ((oneProductDb prodStock4).getProductById "p1").map (·.stock) = some 4 ∧
    (CartService.addItem (oneProductDb prodStock4) "p1" 2 "manual" 1 cartWith3).1.success = true ∧
    (CartService.addItem (oneProductDb prodStock4) "p1" 2 "manual" 1
        cartWith3).2.items.map (·.quantity) = [5] ∧
    (4 : ℚ) < 5 := by
  rw [cartWith3_eq]
  norm_num [CartService.addItem, CartService.addItem.addQtyFirst,
    CartService.calculateTotals, oneProductDb, prodStock4, Db.getProductById,
    rawSubtotal, rawTax, round2, Rat.floor_def']

lemma addQtyFirst_length (pid : String) (q : ℚ) (l : List CartItem) :
    (CartService.addItem.addQtyFirst pid q l).length = l.length := by
  induction l with
  | nil => rfl
  | cons it rest ih =>
    simp only [CartService.addItem.addQtyFirst]
    split <;> simp [ih]

/-- C7, amended.  When the product is in the catalog and a line for it is
already in the cart, `addItem` succeeds exactly when the added quantity is
positive and the catalog stock is at least the *added* quantity (the
incremental amount, not the merged total); on success the existing line's
quantity is summed in place and no duplicate line is inserted. -/
theorem addItem_merges_incremental_check
    (db : Db) (pid : String) (q : ℚ) (m : String) (conf : ℚ) (c : Cart)
    (product : Product)
    (hp : db.getProductById pid = some product)
    (hmem : c.items.any (fun it => it.productId = pid) = true) :
    ((CartService.addItem db pid q m conf c).1.success = true ↔
      0 < q ∧ q ≤ product.stock) ∧
    ((CartService.addItem db pid q m conf c).1.success = true →
      (CartService.addItem db pid q m conf c).2.items =
          CartService.addItem.addQtyFirst pid q c.items ∧
        (CartService.addItem db pid q m conf c).2.items.length = c.items.length) := by
  simp only [CartService.addItem, hp]
  by_cases h1 : q ≤ 0
  · constructor
    · simp [h1, not_lt.mpr h1]
    · simp [h1]
  · by_cases h2 : product.stock < q
    · constructor
      · simp [h1, h2, not_le.mpr h2]
      · simp [h1, h2]
    · simp only [h1, if_false, h2, not_lt.mp h2, not_le.mp h1]
      constructor
      · simp
      · intro _
        simp [hmem, CartService.calculateTotals, addQtyFirst_length]

/-- C7 witness: adding 2 more units of the product already in the cart (stock
4 ≥ 2 incremental) succeeds and merges into the existing line, leaving the
line count unchanged. -/
theorem addItem_merge_witness :
    (CartService.addItem (oneProductDb prodStock4) "p1" 2 "manual" 1 cartWith3).1.success = true ∧
    (CartService.addItem (oneProductDb prodStock4) "p1" 2 "manual" 1
        cartWith3).2.items.length = cartWith3.items.length := by
  have h := addItem_merges_incremental_check (oneProductDb prodStock4) "p1" 2 "manual" 1
    cartWith3 prodStock4
    (by norm_num [Db.getProductById, oneProductDb, prodStock4])
    (by rw [cartWith3_eq]; norm_num)
  have hs := h.1.mpr (by norm_num [prodStock4])
  exact ⟨hs, (h.2 hs).2⟩

/-! ### Transaction lifecycle: `complete`, `void`, `addPaymentMethod`, update -/

/-- A pending transaction over 3 units at price 10 (total 30) carrying one
payment of 20. -/
def txnPending : Transaction :=
  { id := "t1", items := [⟨"p1", "Widget", 10, 0, 3, "manual", 1⟩],
    subtotal := 30, taxAmount := 0, discountAmount := 0, total := 30,
    status := TxnStatus.pending, paymentMethods := [⟨"cash", 20, none, 1⟩],
    customerId := none, employeeId := some "e1", storeId := some "s1",
    notes := "", createdAt := 0, completedAt := none, voidedAt := none }

/-- An already-voided transaction. -/
def txnVoided : Transaction :=
  { id := "t2", items := [⟨"p1", "Widget", 10, 0, 3, "manual", 1⟩],
    subtotal := 30, taxAmount := 0, discountAmount := 0, total := 30,
    status := TxnStatus.voided, paymentMethods := [],
    customerId := none, employeeId := some "e1", storeId := some "s1",
    notes := "", createdAt := 0, completedAt := none, voidedAt := some 1 }

/-- C2.  `Transaction.complete` succeeds only from `pending` with
`Σ paymentEntries.amount ≥ total`; when the paid sum falls short it returns
failure with the transaction (status `pending` included) entirely unchanged;
from any non-pending status it likewise fails without a state change. -/
theorem complete_only_pending_and_paid (t : Transaction) (now : Nat) :
    ((Transaction.complete now t).1 = true →
      t.status = TxnStatus.pending ∧ t.total ≤ totalPaid t) ∧
    (t.status = TxnStatus.pending → totalPaid t < t.total →
      Transaction.complete now t = (false, t)) ∧
    (t.status ≠ TxnStatus.pending → Transaction.complete now t = (false, t)) := by
  unfold Transaction.complete
  by_cases h : t.status = TxnStatus.pending
  · by_cases hp : totalPaid t < t.total
    · simp [h, hp]
    · simp [h, hp, not_lt.mp hp]
  · simp [h]

/-- C2 witness: the pending transaction with total 30 and a single payment of
20 is rejected by `complete` with no state change. -/
theorem complete_insufficient_witness :
    txnPending.status = TxnStatus.pending ∧
    totalPaid txnPending < txnPending.total ∧
    Transaction.complete 5 txnPending = (false, txnPending) := by
  have hp : totalPaid txnPending < txnPending.total := by
    norm_num [totalPaid, txnPending]
  exact ⟨rfl, hp, (complete_only_pending_and_paid txnPending 5).2.1 rfl hp⟩

/-- Source: `APIService.updateTransaction`'s effect on the stored record: rejected when
the stored status is `completed` or `voided`; otherwise the caller-merged
record (id forced back to the stored id) replaces the stored one when it
passes `validate`. -/
def updateTxn (d : Transaction) (t : Transaction) : Transaction :=
  if t.status = TxnStatus.completed ∨ t.status = TxnStatus.voided then t
  else if Transaction.isValid { d with id := t.id } then { d with id := t.id } else t

/-- The transaction lifecycle operations claim C3 quantifies over. -/
inductive TxnOp where
  | pay (pm : PaymentInput) (now : Nat)
  | completeOp (now : Nat)
  | voidOp (reason : String) (now : Nat)
  | updateOp (d : Transaction)

/-- State transition of one lifecycle operation (result flags dropped). -/
def TxnOp.apply (t : Transaction) : TxnOp → Transaction
  | .pay pm now => (Transaction.addPaymentMethod pm now t).2
  | .completeOp now => (Transaction.complete now t).2
  | .voidOp r now => (Transaction.voidTxn r now t).2
  | .updateOp d => updateTxn d t

/-- Run a sequence of lifecycle operations. -/
def runTxnOps (t : Transaction) (ops : List TxnOp) : Transaction :=
  ops.foldl TxnOp.apply t

lemma apply_status_voided (t : Transaction) (op : TxnOp)
    (h : t.status = TxnStatus.voided) :
    (TxnOp.apply t op).status = TxnStatus.voided := by
  cases op with
  | pay pm now =>
    simp only [TxnOp.apply, Transaction.addPaymentMethod]
    split <;> simp [h]
  | completeOp now => simp [TxnOp.apply, Transaction.complete, h]
  | voidOp r now => simp [TxnOp.apply, Transaction.voidTxn, h]
  | updateOp d => simp [TxnOp.apply, updateTxn, h]

lemma apply_status_completed (t : Transaction) (op : TxnOp)
    (h : t.status = TxnStatus.completed) :
    (TxnOp.apply t op).status = TxnStatus.completed ∨
      (TxnOp.apply t op).status = TxnStatus.voided := by
  cases op with
  | pay pm now =>
    left
    simp only [TxnOp.apply, Transaction.addPaymentMethod]
    split <;> simp [h]
  | completeOp now => left; simp [TxnOp.apply, Transaction.complete, h]
  | voidOp r now => right; simp [TxnOp.apply, Transaction.voidTxn, h]
  | updateOp d => left; simp [TxnOp.apply, updateTxn, h]

lemma runTxnOps_voided (ops : List TxnOp) (t : Transaction)
    (h : t.status = TxnStatus.voided) :
    (runTxnOps t ops).status = TxnStatus.voided := by
  induction ops generalizing t with
  | nil => exact h
  | cons op rest ih => exact ih _ (apply_status_voided t op h)

/-- C3, counterexample.  `addPaymentMethod` carries no status guard: on an
already-voided transaction it succeeds and changes the state (the payment list
grows), so "once voided, no further state change is permitted" fails. -/
theorem voided_state_change_cex :
    txnVoided.status = TxnStatus.voided ∧
    (Transaction.addPaymentMethod ⟨"cash", 5, none⟩ 7 txnVoided).1 = true ∧
    (Transaction.addPaymentMethod ⟨"cash", 5, none⟩ 7 txnVoided).2.paymentMethods ≠
      txnVoided.paymentMethods := by
  refine ⟨rfl, ?_, ?_⟩ <;>
    norm_num [Transaction.addPaymentMethod, txnVoided,
      show ("cash" : String) ≠ "" from by decide]

/-- C3, amended.  Over every sequence of lifecycle operations the *status*
component is terminal as claimed: once `voided` the status stays `voided`
(`complete`, `void` and update are all rejected), and from `completed` the
status can only stay `completed` or move to `voided` — never back to
`pending`.  However `addPaymentMethod` is not status-guarded, so voided and
completed transactions can still accrue payment entries. -/
theorem txn_status_terminal (t : Transaction) (ops : List TxnOp) :
    (t.status = TxnStatus.voided → (runTxnOps t ops).status = TxnStatus.voided) ∧
    (t.status = TxnStatus.completed →
      (runTxnOps t ops).status = TxnStatus.completed ∨
        (runTxnOps t ops).status = TxnStatus.voided) := by
  constructor
  · exact fun h => runTxnOps_voided ops t h
  · intro h
    induction ops generalizing t with
    | nil => exact Or.inl h
    | cons op rest ih =>
      rcases apply_status_completed t op h with hc | hv
      · exact ih _ hc
      · exact Or.inr (runTxnOps_voided rest _ hv)

/-- C3 witness: running pay / complete / update / void against a voided
transaction leaves the status `voided`. -/
theorem txn_status_terminal_witness :
    (runTxnOps txnVoided
        [TxnOp.pay ⟨"cash", 5, none⟩ 2, TxnOp.completeOp 3,
          TxnOp.updateOp txnPending, TxnOp.voidOp "again" 4]).status =
      TxnStatus.voided :=
  (txn_status_terminal txnVoided _).1 rfl

/-- C8, counterexample.  A payment entry with the negative amount −5 has
`amount ≤ 0`, yet `addPaymentMethod` accepts it and appends it: the falsy-check
`!paymentMethod.amount` only rejects a zero amount. -/
theorem addPayment_negative_cex :
    ((-5 : ℚ) ≤ 0) ∧
    (Transaction.addPaymentMethod ⟨"cash", -5, none⟩ 3 txnPending).1 = true ∧
    (Transaction.addPaymentMethod ⟨"cash", -5, none⟩ 3 txnPending).2.paymentMethods =
      txnPending.paymentMethods ++ [⟨"cash", -5, none, 3⟩] := by
  norm_num [Transaction.addPaymentMethod,
    show ("cash" : String) ≠ "" from by decide]

/-- C8, amended.  `addPaymentMethod` fails exactly when the entry's type is
empty or its amount is zero (the JS falsiness guard); every other entry —
negative amounts included — is appended; failure leaves the transaction
unchanged; and the verdict is independent of the status, so the operation is
permitted at any point, after completion and after voiding included. -/
theorem addPaymentMethod_guard (t : Transaction) (pm : PaymentInput) (now : Nat) :
    ((Transaction.addPaymentMethod pm now t).1 = true ↔
      pm.type ≠ "" ∧ pm.amount ≠ 0) ∧
    ((Transaction.addPaymentMethod pm now t).1 = true →
      (Transaction.addPaymentMethod pm now t).2 =
        { t with paymentMethods :=
            t.paymentMethods ++ [⟨pm.type, pm.amount, pm.reference, now⟩] }) ∧
    ((Transaction.addPaymentMethod pm now t).1 = false →
      (Transaction.addPaymentMethod pm now t).2 = t) ∧
    (∀ s : TxnStatus,
      (Transaction.addPaymentMethod pm now { t with status := s }).1 =
        (Transaction.addPaymentMethod pm now t).1) := by
  unfold Transaction.addPaymentMethod
  by_cases h : pm.type = "" ∨ pm.amount = 0
  · simp only [h, if_true]
    refine ⟨?_, ?_⟩
    · simp
      tauto
    · simp
  · simp only [h, if_false]
    push_neg at h
    simp [h]

/-- C8 witness: a nonzero, typed payment entry is appended even on a voided
transaction. -/
theorem addPaymentMethod_guard_witness :
    (Transaction.addPaymentMethod ⟨"card", 30, none⟩ 4 txnVoided).1 = true ∧
    (Transaction.addPaymentMethod ⟨"card", 30, none⟩ 4 txnVoided).2 =
      { txnVoided with paymentMethods :=
          txnVoided.paymentMethods ++ [⟨"card", 30, none, 4⟩] } := by
  have h := addPaymentMethod_guard txnVoided ⟨"card", 30, none⟩ 4
  have hs := h.1.mpr ⟨by decide, by norm_num⟩
  exact ⟨hs, h.2.1 hs⟩

/-! ### API-level completion and voiding with their per-line stock loops -/

/-- The per-line stock mutation loop shared by `completeTransaction` (with
`stock - quantity`) and `voidTransaction` (with `stock + quantity`): look each
line's product up, update its stock by the line's quantity, save it back;
lines whose product is missing from the store are silently skipped. -/
def stockLoop (op : ℚ → ℚ → ℚ) (items : List TxnItem) (db : Db) : Db :=
  items.foldl (fun d item =>
    match d.getProductById item.productId with
    | none => d
    | some p => d.saveProduct { p with stock := op p.stock item.quantity }) db

/-- The total quantity the lines of `items` carry for the product `pid`. -/
def qtyOf (items : List TxnItem) (pid : String) : ℚ :=
  ((items.filter (fun it => it.productId = pid)).map (·.quantity)).sum

lemma saveProduct_products (db : Db) (p : Product) (hid : p.id ≠ "") :
    (db.saveProduct p).products = fun i => if i = p.id then some p else db.products i := by
  simp [Db.saveProduct, hid]

lemma saveProduct_WF (db : Db) (p : Product) (hid : p.id ≠ "") (hwf : db.WF) :
    (db.saveProduct p).WF := by
  intro pid q hq
  rw [saveProduct_products db p hid] at hq
  dsimp only at hq
  by_cases h : pid = p.id
  · rw [if_pos h] at hq
    cases hq
    exact ⟨h.symm, h ▸ hid⟩
  · rw [if_neg h] at hq
    exact hwf pid q hq

lemma stockLoop_products (op : ℚ → ℚ → ℚ) (items : List TxnItem) :
    ∀ db : Db, db.WF →
      (∀ it ∈ items, (db.products it.productId).isSome = true) →
      ∀ pid, (stockLoop op items db).products pid =
        (db.products pid).map (fun p =>
          { p with stock := ((items.filter (fun it => it.productId = pid)).map
              (·.quantity)).foldl op p.stock }) := by
  induction items with
  | nil =>
    intro db _ _ pid
    simp only [stockLoop, List.foldl_nil, List.filter_nil, List.map_nil,
      List.foldl_nil]
    cases db.products pid <;> simp
  | cons it rest ih =>
    intro db hwf hall pid
    obtain ⟨p, hp⟩ := Option.isSome_iff_exists.mp (hall it (by simp))
    obtain ⟨hpid, hne⟩ := hwf _ _ hp
    have hid1 : (⟨p.id, p.name, p.price, p.taxRate, op p.stock it.quantity⟩ : Product).id ≠ "" := by
      simpa using hpid ▸ hne
    have hstep : stockLoop op (it :: rest) db =
        stockLoop op rest (db.saveProduct ⟨p.id, p.name, p.price, p.taxRate, op p.stock it.quantity⟩) := by
      simp [stockLoop, Db.getProductById, hp]
    have hall1 : ∀ x ∈ rest,
        (((db.saveProduct ⟨p.id, p.name, p.price, p.taxRate, op p.stock it.quantity⟩)).products
          x.productId).isSome = true := by
      intro x hx
      rw [saveProduct_products _ _ hid1]
      dsimp only
      by_cases h : x.productId = p.id
      · simp [h]
      · rw [if_neg h]
        exact hall x (List.mem_cons_of_mem _ hx)
    rw [hstep, ih _ (saveProduct_WF _ _ hid1 hwf) hall1 pid,
      saveProduct_products _ _ hid1]
    dsimp only
    by_cases hcase : pid = it.productId
    · subst hcase
      rw [if_pos hpid.symm, hp]
      simp [List.filter_cons]
    · have hne2 : ¬ (pid = p.id) := fun h => hcase (h.trans hpid)
      rw [if_neg hne2]
      have hfil : (it :: rest).filter (fun x => x.productId = pid) =
          rest.filter (fun x => x.productId = pid) := by
        rw [List.filter_cons]
        simp [show ¬(it.productId = pid) from fun h => hcase h.symm]
      rw [hfil]

lemma foldl_add_sum (s : ℚ) (l : List ℚ) : l.foldl (· + ·) s = s + l.sum := by
  induction l generalizing s with
  | nil => simp
  | cons a rest ih => simp [ih, add_assoc]

lemma foldl_sub_sum (s : ℚ) (l : List ℚ) : l.foldl (· - ·) s = s - l.sum := by
  induction l generalizing s with
  | nil => simp
  | cons a rest ih => simp [ih, sub_sub]

lemma stockLoop_add (items : List TxnItem) (db : Db) (hwf : db.WF)
    (hall : ∀ it ∈ items, (db.products it.productId).isSome = true) (pid : String) :
    (stockLoop (fun s q => s + q) items db).products pid =
      (db.products pid).map (fun p => { p with stock := p.stock + qtyOf items pid }) := by
  rw [stockLoop_products _ items db hwf hall pid]
  cases db.products pid <;> simp [qtyOf, foldl_add_sum]

lemma stockLoop_sub (items : List TxnItem) (db : Db) (hwf : db.WF)
    (hall : ∀ it ∈ items, (db.products it.productId).isSome = true) (pid : String) :
    (stockLoop (fun s q => s - q) items db).products pid =
      (db.products pid).map (fun p => { p with stock := p.stock - qtyOf items pid }) := by
  rw [stockLoop_products _ items db hwf hall pid]
  cases db.products pid <;> simp [qtyOf, foldl_sub_sum]

/-- The `{success, status, message?, data?}` envelope the API handlers return,
with `data` restricted to the transaction payload the lifecycle handlers emit. -/
structure ApiResp where
  success : Bool
  status : Nat
  message : Option String
  txn : Option Transaction
deriving DecidableEq

/-- Replay of `addPaymentMethod` over the caller-supplied payment entries. -/
def payFold (payments : List PaymentInput) (now : Nat) (t : Transaction) : Transaction :=
  payments.foldl (fun acc pm => (Transaction.addPaymentMethod pm now acc).2) t

/-- Source: `APIService.completeTransaction`: lookup, status guards, payment-list
guard, replay of `addPaymentMethod` over the supplied entries, `complete`,
then the unconditional per-line stock decrement and the save. -/
def APIService.completeTransaction (db : Db) (id : String)
    (payments : List PaymentInput) (now : Nat) : ApiResp × Db :=
  match db.transactions id with
  | none => (⟨false, 404, some "Transaction not found", none⟩, db)
  | some t =>
    if t.status = TxnStatus.completed then
      (⟨false, 400, some "Transaction is already completed", none⟩, db)
    else if t.status = TxnStatus.voided then
      (⟨false, 400, some "Cannot complete voided transaction", none⟩, db)
    else if payments.isEmpty then
      (⟨false, 400, some "Payment methods are required", none⟩, db)
    else
      let t1 := payFold payments now t
      let r := Transaction.complete now t1
      if r.1 = false then (⟨false, 400, some "Failed to complete transaction", none⟩, db)
      else
        let db1 := stockLoop (fun s q => s - q) r.2.items db
        let s := db1.saveTransactionChecked r.2
        if s.1 = false then (⟨false, 500, some "Failed to save transaction", none⟩, s.2)
        else (⟨true, 200, none, some r.2⟩, s.2)

/-- Source: `APIService.voidTransaction`: lookup, already-voided guard, `void` on the
record, the per-line stock increment when the prior status was `completed`,
then the save. -/
def APIService.voidTransaction (db : Db) (id : String) (reason : String) (now : Nat) :
    ApiResp × Db :=
  match db.transactions id with
  | none => (⟨false, 404, some "Transaction not found", none⟩, db)
  | some t =>
    if t.status = TxnStatus.voided then
      (⟨false, 400, some "Transaction is already voided", none⟩, db)
    else
      let r := Transaction.voidTxn reason now t
      if r.1 = false then (⟨false, 400, some "Failed to void transaction", none⟩, db)
      else
        let db1 := if t.status = TxnStatus.completed
          then stockLoop (fun s q => s + q) r.2.items db else db
        let s := db1.saveTransactionChecked r.2
        if s.1 = false then (⟨false, 500, some "Failed to save transaction", none⟩, s.2)
        else (⟨true, 200, none, some r.2⟩, s.2)

lemma voidTxn_fields (reason : String) (now : Nat) (t : Transaction)
    (h : ¬ (t.status = TxnStatus.voided)) :
    (Transaction.voidTxn reason now t).1 = true ∧
    (Transaction.voidTxn reason now t).2 =
      { t with
        status := TxnStatus.voided
        voidedAt := some now
        notes := t.notes ++ (if reason ≠ "" then "\nVoided: " ++ reason else "\nVoided") } := by
  simp [Transaction.voidTxn, h]

/-- C4.  Voiding a completed transaction (whose lines' products all exist in
the store, stored under their own non-empty ids) succeeds, increments every
product's stock by exactly the total quantity the transaction's lines carry
for it — so exactly the per-line quantities decremented at completion are
restored, exactly once — stores the record with status `voided`, and appends
the void reason to the notes. -/
theorem voidTransaction_restores_stock
    (db : Db) (id reason : String) (now : Nat) (t : Transaction)
    (hget : db.transactions id = some t)
    (hstatus : t.status = TxnStatus.completed)
    (hwf : db.WF)
    (hall : ∀ it ∈ t.items, (db.products it.productId).isSome = true)
    (hid : t.id ≠ "") :
    (APIService.voidTransaction db id reason now).1.success = true ∧
    (APIService.voidTransaction db id reason now).1.status = 200 ∧
    (∀ pid, ((APIService.voidTransaction db id reason now).2).products pid =
      (db.products pid).map (fun p => { p with stock := p.stock + qtyOf t.items pid })) ∧
    ((APIService.voidTransaction db id reason now).2).transactions t.id =
      some ((Transaction.voidTxn reason now t).2) ∧
    ((Transaction.voidTxn reason now t).2).status = TxnStatus.voided ∧
    ((Transaction.voidTxn reason now t).2).notes =
      t.notes ++ (if reason ≠ "" then "\nVoided: " ++ reason else "\nVoided") := by
  have hnv : ¬ (t.status = TxnStatus.voided) := by rw [hstatus]; intro hc; cases hc
  obtain ⟨hr1, hr2⟩ := voidTxn_fields reason now t hnv
  have hitems : (Transaction.voidTxn reason now t).2.items = t.items := by rw [hr2]
  have hidV : (Transaction.voidTxn reason now t).2.id = t.id := by rw [hr2]
  have hmain : APIService.voidTransaction db id reason now =
      (⟨true, 200, none, some (Transaction.voidTxn reason now t).2⟩,
        { products :=
            (stockLoop (fun s q => s + q) (Transaction.voidTxn reason now t).2.items db).products,
          transactions := fun i =>
            if i = t.id then some ((Transaction.voidTxn reason now t).2)
            else (stockLoop (fun s q => s + q)
              (Transaction.voidTxn reason now t).2.items db).transactions i }) := by
    simp only [APIService.voidTransaction, hget]
    rw [if_neg hnv, if_pos hstatus]
    simp [hr1, Db.saveTransactionChecked, hidV, hid]
  refine ⟨?_, ?_, ?_, ?_, ?_, ?_⟩
  · rw [hmain]
  · rw [hmain]
  · intro pid
    rw [hmain]
    dsimp only
    rw [hitems, stockLoop_add t.items db hwf hall pid]
  · rw [hmain]
    dsimp only
    rw [if_pos rfl]
  · rw [hr2]
  · rw [hr2]

/-- A store with a single product and a single stored transaction. -/
def storeWith (p : Product) (txns : String → Option Transaction) : Db :=
  ⟨fun pid => if pid = p.id then some p else none, txns⟩

lemma storeWith_WF (p : Product) (h : p.id ≠ "") (txns : String → Option Transaction) :
    (storeWith p txns).WF := by
  intro pid q hq
  dsimp only [storeWith] at hq
  by_cases hc : pid = p.id
  · rw [if_pos hc] at hq
    cases hq
    exact ⟨hc.symm, hc ▸ h⟩
  · rw [if_neg hc] at hq
    cases hq

/-- A completed transaction over 3 units of `p1` at price 10. -/
def txnCompleted : Transaction :=
  { id := "t3", items := [⟨"p1", "Widget", 10, 0, 3, "manual", 1⟩],
    subtotal := 30, taxAmount := 0, discountAmount := 0, total := 30,
    status := TxnStatus.completed, paymentMethods := [⟨"cash", 30, none, 1⟩],
    customerId := none, employeeId := some "e1", storeId := some "s1",
    notes := "", createdAt := 0, completedAt := some 2, voidedAt := none }

/-- Stock 5 in the catalog, a completed transaction `t3` over 3 units. -/
def dbC4 : Db := storeWith prodStock5 (fun i => if i = "t3" then some txnCompleted else none)

/-- C4 witness: voiding the completed 3-unit transaction raises the product's
stock from 5 to 8 and stores the record voided. -/
theorem voidTransaction_restores_witness :
    (APIService.voidTransaction dbC4 "t3" "refund" 9).1.success = true ∧
    ((APIService.voidTransaction dbC4 "t3" "refund" 9).2).products "p1" =
      some ⟨"p1", "Widget", 10, 0, 8⟩ ∧
    (((APIService.voidTransaction dbC4 "t3" "refund" 9).2).transactions "t3").map (·.status) =
      some TxnStatus.voided := by
  have hall : ∀ it ∈ txnCompleted.items, (dbC4.products it.productId).isSome = true := by
    intro it hit
    simp only [txnCompleted, List.mem_singleton] at hit
    rw [hit]
    rfl
  have h := voidTransaction_restores_stock dbC4 "t3" "refund" 9 txnCompleted rfl rfl
    (storeWith_WF prodStock5 (by decide) _) hall (by decide)
  refine ⟨h.1, ?_, ?_⟩
  · rw [h.2.2.1 "p1"]
    norm_num [dbC4, storeWith, prodStock5, qtyOf, txnCompleted]
  · rw [show ((APIService.voidTransaction dbC4 "t3" "refund" 9).2).transactions "t3" =
        some ((Transaction.voidTxn "refund" 9 txnCompleted).2) from h.2.2.2.1]
    simp [h.2.2.2.2.1]

/-! ### C5: completion's stock handling -/

lemma addPaymentMethod_keeps (pm : PaymentInput) (now : Nat) (t : Transaction) :
    (Transaction.addPaymentMethod pm now t).2.status = t.status ∧
    (Transaction.addPaymentMethod pm now t).2.items = t.items ∧
    (Transaction.addPaymentMethod pm now t).2.total = t.total ∧
    (Transaction.addPaymentMethod pm now t).2.id = t.id := by
  unfold Transaction.addPaymentMethod
  split <;> simp

lemma payFold_keeps (payments : List PaymentInput) (now : Nat) (t : Transaction) :
    (payFold payments now t).status = t.status ∧
    (payFold payments now t).items = t.items ∧
    (payFold payments now t).total = t.total ∧
    (payFold payments now t).id = t.id := by
  induction payments generalizing t with
  | nil => exact ⟨rfl, rfl, rfl, rfl⟩
  | cons pm rest ih =>
    have hstep : payFold (pm :: rest) now t =
        payFold rest now (Transaction.addPaymentMethod pm now t).2 := by
      simp [payFold]
    obtain ⟨h1, h2, h3, h4⟩ := addPaymentMethod_keeps pm now t
    obtain ⟨g1, g2, g3, g4⟩ := ih (Transaction.addPaymentMethod pm now t).2
    exact ⟨by rw [hstep, g1, h1], by rw [hstep, g2, h2],
      by rw [hstep, g3, h3], by rw [hstep, g4, h4]⟩

/-- C5, amended.  On a pending, sufficiently paid transaction (nonempty
payment list) whose lines' products exist in the store, `completeTransaction`
succeeds and decrements every product's stock by the total line quantity
*unconditionally*: no stock-availability check is made, no `StockUnavailable`
failure exists, and the stored stock may go negative. -/
theorem completeTransaction_decrements_unconditionally
    (db : Db) (id : String) (payments : List PaymentInput) (now : Nat) (t : Transaction)
    (hget : db.transactions id = some t)
    (hstatus : t.status = TxnStatus.pending)
    (hpm : payments.isEmpty = false)
    (hpaid : (payFold payments now t).total ≤ totalPaid (payFold payments now t))
    (hwf : db.WF)
    (hall : ∀ it ∈ t.items, (db.products it.productId).isSome = true)
    (hid : t.id ≠ "") :
    (APIService.completeTransaction db id payments now).1.success = true ∧
    (APIService.completeTransaction db id payments now).1.status = 200 ∧
    (∀ pid, ((APIService.completeTransaction db id payments now).2).products pid =
      (db.products pid).map (fun p => { p with stock := p.stock - qtyOf t.items pid })) ∧
    (((APIService.completeTransaction db id payments now).2).transactions t.id).map (·.status) =
      some TxnStatus.completed := by
  obtain ⟨hs1, hs2, hs3, hs4⟩ := payFold_keeps payments now t
  have hnc : ¬ (t.status = TxnStatus.completed) := by rw [hstatus]; intro hc; cases hc
  have hnv : ¬ (t.status = TxnStatus.voided) := by rw [hstatus]; intro hc; cases hc
  have hcomp : Transaction.complete now (payFold payments now t) =
      (true, { payFold payments now t with
        status := TxnStatus.completed, completedAt := some now }) := by
    unfold Transaction.complete
    rw [if_neg (by rw [hs1, hstatus]; simp), if_neg (not_lt.mpr hpaid)]
  have hmain : APIService.completeTransaction db id payments now =
      (⟨true, 200, none, some { payFold payments now t with
          status := TxnStatus.completed, completedAt := some now }⟩,
        { products := (stockLoop (fun s q => s - q) t.items db).products,
          transactions := fun i =>
            if i = t.id then some { payFold payments now t with
              status := TxnStatus.completed, completedAt := some now }
            else (stockLoop (fun s q => s - q) t.items db).transactions i }) := by
    simp only [APIService.completeTransaction, hget]
    rw [if_neg hnc, if_neg hnv]
    simp only [hpm, Bool.false_eq_true, if_false, hcomp]
    simp [Db.saveTransactionChecked, hs4, hid, hs2]
  refine ⟨?_, ?_, ?_, ?_⟩
  · rw [hmain]
  · rw [hmain]
  · intro pid
    rw [hmain]
    dsimp only
    rw [stockLoop_sub t.items db hwf hall pid]
  · rw [hmain]
    dsimp only
    rw [if_pos rfl]
    rfl

/-- Stock 2 in the catalog. -/
def prodStock2 : Product := ⟨"p1", "Widget", 10, 0, 2⟩

/-- A pending transaction over 5 units of `p1` (total 50), unpaid so far. -/
def txnQty5 : Transaction :=
  { id := "t4", items := [⟨"p1", "Widget", 10, 0, 5, "manual", 1⟩],
    subtotal := 50, taxAmount := 0, discountAmount := 0, total := 50,
    status := TxnStatus.pending, paymentMethods := [],
    customerId := none, employeeId := some "e1", storeId := some "s1",
    notes := "", createdAt := 0, completedAt := none, voidedAt := none }

/-- Catalog stock 2, pending transaction `t4` over 5 units. -/
def dbLowStock : Db := storeWith prodStock2 (fun i => if i = "t4" then some txnQty5 else none)

/-- C5, counterexample.  Available stock is 2 and the sole line asks for 5,
yet a sufficiently paid completion *succeeds* (no `StockUnavailable`), marks
the transaction completed, and drives the stock to −3: the claimed per-line
availability check and failure path do not exist in the code. -/
theorem complete_no_stock_check_cex :
    (dbLowStock.products "p1").map (·.stock) = some 2 ∧
    ((2 : ℚ) < 5) ∧
    (APIService.completeTransaction dbLowStock "t4" [⟨"cash", 100, none⟩] 3).1.success = true ∧
    (((APIService.completeTransaction dbLowStock "t4"
        [⟨"cash", 100, none⟩] 3).2).transactions "t4").map (·.status) =
      some TxnStatus.completed ∧
    (((APIService.completeTransaction dbLowStock "t4"
        [⟨"cash", 100, none⟩] 3).2).products "p1").map (·.stock) = some (-3) := by
  refine ⟨rfl, by norm_num, ?_⟩
  have hall : ∀ it ∈ txnQty5.items, (dbLowStock.products it.productId).isSome = true := by
    intro it hit
    simp only [txnQty5, List.mem_singleton] at hit
    rw [hit]
    rfl
  have h := completeTransaction_decrements_unconditionally dbLowStock "t4"
    [⟨"cash", 100, none⟩] 3 txnQty5 rfl rfl rfl
    (by norm_num [payFold, Transaction.addPaymentMethod, totalPaid, txnQty5,
      show ("cash" : String) ≠ "" from by decide])
    (storeWith_WF prodStock2 (by decide) _) hall (by decide)
  refine ⟨h.1, h.2.2.2, ?_⟩
  rw [h.2.2.1 "p1"]
  norm_num [dbLowStock, storeWith, prodStock2, qtyOf, txnQty5]

/-- C5 witness (for the amended theorem): the same completion applied through
the theorem yields the saved product record with stock −3. -/
theorem completeTransaction_decrements_witness :
    (APIService.completeTransaction dbLowStock "t4" [⟨"cash", 100, none⟩] 3).1.status = 200 ∧
    ((APIService.completeTransaction dbLowStock "t4"
        [⟨"cash", 100, none⟩] 3).2).products "p1" = some ⟨"p1", "Widget", 10, 0, -3⟩ := by
  have hall : ∀ it ∈ txnQty5.items, (dbLowStock.products it.productId).isSome = true := by
    intro it hit
    simp only [txnQty5, List.mem_singleton] at hit
    rw [hit]
    rfl
  have h := completeTransaction_decrements_unconditionally dbLowStock "t4"
    [⟨"cash", 100, none⟩] 3 txnQty5 rfl rfl rfl
    (by norm_num [payFold, Transaction.addPaymentMethod, totalPaid, txnQty5,
      show ("cash" : String) ≠ "" from by decide])
    (storeWith_WF prodStock2 (by decide) _) hall (by decide)
  refine ⟨h.2.1, ?_⟩
  rw [h.2.2.1 "p1"]
  norm_num [dbLowStock, storeWith, prodStock2, qtyOf, txnQty5]

/-! ### C9: the permission-gated request dispatcher -/

/-- A registered route: method, path pattern (pre-split on `/`, `:`-prefixed
segments are parameters), and the required permission list. -/
structure Endpoint where
  method : String
  pattern : List String
  permissions : List String
deriving DecidableEq

/-- Source: `patternPart.startsWith(':')`, expressed on the character list. -/
def isParamSeg (seg : String) : Bool := seg.data.head? = some ':'

/-- Source: `patternPart.substring(1)`, expressed on the character list. -/
def paramName (seg : String) : String := String.mk (seg.data.drop 1)

/-- Source: `APIService.matchPathPattern`: equal segment counts, `:`-segments bind
parameters, all other segments must match literally. -/
def matchSegs : List String → List String → Option (List (String × String))
  | [], [] => some []
  | pp :: ps, q :: qs =>
    if isParamSeg pp then
      (matchSegs ps qs).map (fun m => (paramName pp, q) :: m)
    else if pp = q then matchSegs ps qs
    else none
  | _, _ => none

/-- The pattern-matching scan of `APIService.findEndpoint`: first registered
endpoint whose method matches and whose pattern matches the path. -/
def findPattern (method : String) (path : List String) :
    List Endpoint → Option (Endpoint × List (String × String))
  | [] => none
  | e :: rest =>
    if e.method == method then
      match matchSegs e.pattern path with
      | some ps => some (e, ps)
      | none => findPattern method path rest
    else findPattern method path rest

/-- Source: `APIService.findEndpoint`: exact key match first, then the registration
order pattern scan. -/
def findEndpoint (eps : List Endpoint) (method : String) (path : List String) :
    Option (Endpoint × List (String × String)) :=
  match eps.find? (fun e => e.method == method && e.pattern == path) with
  | some e => some (e, [])
  | none => findPattern method path eps

/-- The dispatcher's `{success, status, message?}` result envelope. -/
structure Envelope where
  success : Bool
  status : Nat
  message : Option String
deriving DecidableEq

/-- Source: `APIService.handleRequest`: no match → 404; a matched endpoint with a
non-empty permission list requires an authenticated session (else 401) that
holds *every* listed permission (else 403); an empty permission list skips
both checks and the handler runs. -/
def handleRequest (eps : List Endpoint) (session : Option (List String))
    (handler : Endpoint → List (String × String) → Envelope)
    (method : String) (path : List String) : Envelope :=
  match findEndpoint eps method path with
  | none => ⟨false, 404, some "Endpoint not found"⟩
  | some (e, params) =>
    if e.permissions.length > 0 then
      match session with
      | none => ⟨false, 401, some "Authentication required"⟩
      | some perms =>
        if e.permissions.all (fun pm => perms.contains pm) then handler e params
        else ⟨false, 403, some "Permission denied"⟩
    else handler e params

/-- The route table `APIService.registerEndpoints` builds, in registration
order, patterns pre-split on `/`. -/
def apiEndpoints : List Endpoint := [
  ⟨"GET", ["", "api", "products"], ["products:read"]⟩,
  ⟨"GET", ["", "api", "products", ":id"], ["products:read"]⟩,
  ⟨"POST", ["", "api", "products"], ["products:create"]⟩,
  ⟨"PUT", ["", "api", "products", ":id"], ["products:update"]⟩,
  ⟨"DELETE", ["", "api", "products", ":id"], ["products:delete"]⟩,
  ⟨"GET", ["", "api", "products", "category", ":category"], ["products:read"]⟩,
  ⟨"GET", ["", "api", "products", "search", ":query"], ["products:read"]⟩,
  ⟨"GET", ["", "api", "transactions"], ["transactions:read"]⟩,
  ⟨"GET", ["", "api", "transactions", ":id"], ["transactions:read"]⟩,
  ⟨"POST", ["", "api", "transactions"], ["transactions:create"]⟩,
  ⟨"PUT", ["", "api", "transactions", ":id"], ["transactions:update"]⟩,
  ⟨"POST", ["", "api", "transactions", ":id", "complete"], ["transactions:update"]⟩,
  ⟨"POST", ["", "api", "transactions", ":id", "void"], ["transactions:void"]⟩,
  ⟨"GET", ["", "api", "users"], ["users:read"]⟩,
  ⟨"GET", ["", "api", "users", ":id"], ["users:read"]⟩,
  ⟨"POST", ["", "api", "users"], ["users:create"]⟩,
  ⟨"PUT", ["", "api", "users", ":id"], ["users:update"]⟩,
  ⟨"DELETE", ["", "api", "users", ":id"], ["users:delete"]⟩,
  ⟨"POST", ["", "api", "users", ":id", "reset-password"], ["users:update"]⟩,
  ⟨"POST", ["", "api", "auth", "login"], []⟩,
  ⟨"POST", ["", "api", "auth", "logout"], []⟩,
  ⟨"GET", ["", "api", "auth", "current-user"], []⟩,
  ⟨"POST", ["", "api", "auth", "change-password"], []⟩,
  ⟨"GET", ["", "api", "settings"], ["settings:read"]⟩,
  ⟨"PUT", ["", "api", "settings"], ["settings:update"]⟩,
  ⟨"GET", ["", "api", "settings", ":key"], ["settings:read"]⟩,
  ⟨"PUT", ["", "api", "settings", ":key"], ["settings:update"]⟩,
  ⟨"POST", ["", "api", "vision", "process"], ["products:read"]⟩,
  ⟨"POST", ["", "api", "vision", "train"], ["products:update"]⟩,
  ⟨"GET", ["", "api", "vision", "model-info"], ["products:read"]⟩,
  ⟨"PUT", ["", "api", "vision", "threshold"], ["settings:update"]⟩]

/-- Source: `User.getDefaultPermissions`: the per-role default permission sets. -/
def User.getDefaultPermissions (role : String) : List String :=
  match role with
  | "admin" =>
    ["users:read", "users:create", "users:update", "users:delete",
     "products:read", "products:create", "products:update", "products:delete",
     "transactions:read", "transactions:create", "transactions:update", "transactions:void",
     "reports:read", "settings:read", "settings:update"]
  | "manager" =>
    ["users:read",
     "products:read", "products:create", "products:update",
     "transactions:read", "transactions:create", "transactions:update", "transactions:void",
     "reports:read", "settings:read"]
  | "cashier" =>
    ["products:read", "transactions:read", "transactions:create"]
  | _ => []

lemma find_void_route :
    findEndpoint apiEndpoints "POST" ["", "api", "transactions", "t1", "void"] =
      some (⟨"POST", ["", "api", "transactions", ":id", "void"], ["transactions:void"]⟩,
        [("id", "t1")]) := by
  decide

/-- C9.  For every dispatched request whose (method, path) matches a
registered route: a non-empty permission list with no session yields the
`{success := false, status := 401}` envelope; with a session lacking any one
listed permission (AND semantics) it yields `{success := false,
status := 403}`; an empty permission list bypasses both checks and returns
the handler's result.  In particular a session with the cashier default
permissions invoking `POST /api/transactions/:id/void` receives the 403
envelope. -/
theorem dispatcher_permission_gate
    (session : Option (List String))
    (handler : Endpoint → List (String × String) → Envelope)
    (method : String) (path : List String)
    (e : Endpoint) (params : List (String × String))
    (hfind : findEndpoint apiEndpoints method path = some (e, params)) :
    (e.permissions ≠ [] → session = none →
      handleRequest apiEndpoints session handler method path =
        ⟨false, 401, some "Authentication required"⟩) ∧
    (∀ perms, session = some perms → (∃ pm ∈ e.permissions, pm ∉ perms) →
      handleRequest apiEndpoints session handler method path =
        ⟨false, 403, some "Permission denied"⟩) ∧
    (e.permissions = [] →
      handleRequest apiEndpoints session handler method path = handler e params) ∧
    (handleRequest apiEndpoints (some (User.getDefaultPermissions "cashier")) handler
        "POST" ["", "api", "transactions", "t1", "void"] =
      ⟨false, 403, some "Permission denied"⟩) := by
  refine ⟨?_, ?_, ?_, ?_⟩
  case refine_4 =>
    simp only [handleRequest, find_void_route]
    rw [if_pos (by decide), if_neg (by decide)]
  · intro hne hsess
    subst hsess
    simp only [handleRequest, hfind]
    rw [if_pos (List.length_pos.mpr hne)]
  · intro perms hsess hex
    subst hsess
    obtain ⟨pm, hmem, hnot⟩ := hex
    simp only [handleRequest, hfind]
    rw [if_pos (List.length_pos.mpr (List.ne_nil_of_mem hmem))]
    have hfail : ¬ (e.permissions.all (fun q => perms.contains q) = true) := by
      rw [List.all_eq_true]
      intro hAll
      exact hnot (by simpa using hAll pm hmem)
    rw [if_neg hfail]
  · intro hnil
    simp [handleRequest, hfind, hnil]

/-- A trivially succeeding handler. -/
def okHandler : Endpoint → List (String × String) → Envelope := fun _ _ => ⟨true, 200, none⟩

/-- C9 witness: an unauthenticated `GET /api/products` (a route with a
non-empty permission list) receives the 401 envelope. -/
theorem dispatcher_gate_witness :
    handleRequest apiEndpoints none okHandler "GET" ["", "api", "products"] =
      ⟨false, 401, some "Authentication required"⟩ := by
  have h := dispatcher_permission_gate none okHandler "GET" ["", "api", "products"]
    ⟨"GET", ["", "api", "products"], ["products:read"]⟩ [] rfl
  exact h.1 (by simp) rfl

/-! ### C10: checkout's change computation -/

/-- Source: `CartService.createTransaction`: empty-cart and missing-id guards, then
the pending transaction built from the cart snapshot (the fresh id is passed
in explicitly). -/
def CartService.createTransaction (c : Cart) (employeeId storeId newId : String)
    (now : Nat) : Except String Transaction :=
  if c.items.isEmpty then .error "Cart is empty"
  else if employeeId = "" then .error "Employee ID is required"
  else if storeId = "" then .error "Store ID is required"
  else .ok
    { id := newId
      items := c.items.map (fun it =>
        ⟨it.productId, it.name, it.price, it.taxRate, it.quantity,
          it.recognitionMethod, it.recognitionConfidence⟩)
      subtotal := c.subtotal
      taxAmount := c.taxAmount
      discountAmount := c.discountAmount
      total := c.total
      status := TxnStatus.pending
      paymentMethods := []
      customerId := c.customerId
      employeeId := some employeeId
      storeId := some storeId
      notes := c.notes
      createdAt := now
      completedAt := none
      voidedAt := none }

/-- The `{success, message, transaction?, change?, amountDue?}` result of
`CartService.checkout`. -/
structure CheckoutResult where
  success : Bool
  message : String
  txn : Option Transaction
  change : Option ℚ
  amountDue : Option ℚ
deriving DecidableEq

/-- The per-line stock decrement loop inside `CartService.checkout`. -/
def cartStockLoop (items : List CartItem) (db : Db) : Db :=
  items.foldl (fun d item =>
    match d.getProductById item.productId with
    | none => d
    | some p => d.saveProduct { p with stock := p.stock - item.quantity }) db

/-- Source: `CartService.checkout`: draft transaction, payment checks against the
cart's total, payment replay, `complete` (result ignored), stock decrement,
save (result ignored), `clearCart`, and the returned change computed as
`totalPayment - this.total` *after* the cart was cleared. -/
def CartService.checkout (db : Db) (c : Cart) (employeeId storeId : String)
    (paymentMethods : List PaymentInput) (newId : String) (now : Nat) :
    CheckoutResult × Cart × Db :=
  match CartService.createTransaction c employeeId storeId newId now with
  | .error m => (⟨false, m, none, none, none⟩, c, db)
  | .ok txn =>
    if paymentMethods.isEmpty then
      (⟨false, "Payment methods are required", some txn, none, none⟩, c, db)
    else
      let totalPayment := (paymentMethods.map (·.amount)).sum
      if totalPayment < c.total then
        (⟨false, "Insufficient payment amount", some txn, none,
          some (c.total - totalPayment)⟩, c, db)
      else
        let txnObj := payFold paymentMethods now txn
        let txnObj2 := (Transaction.complete now txnObj).2
        let db1 := cartStockLoop c.items db
        let db2 := (db1.saveTransactionChecked txnObj2).2
        let c2 := emptyCart
        (⟨true, "Checkout completed", some txnObj2,
          some (totalPayment - c2.total), none⟩, c2, db2)

/-- C10.  Whenever `checkout` succeeds, the returned `change` equals the full
payment sum — not payment minus the transaction total — because `clearCart`
resets the cart's `total` to 0 before `change` is computed as
`totalPayment - this.total`. -/
theorem checkout_change_equals_full_payment
    (db : Db) (c : Cart) (employeeId storeId : String)
    (payments : List PaymentInput) (newId : String) (now : Nat)
    (hs : (CartService.checkout db c employeeId storeId payments newId now).1.success = true) :
    (CartService.checkout db c employeeId storeId payments newId now).1.change =
      some ((payments.map (·.amount)).sum) := by
  unfold CartService.checkout at hs ⊢
  cases hct : CartService.createTransaction c employeeId storeId newId now with
  | error m =>
    rw [hct] at hs
    simp at hs
  | ok txn =>
    rw [hct] at hs
    dsimp only at hs ⊢
    by_cases h1 : payments.isEmpty
    · simp [h1] at hs
    · by_cases h2 : (payments.map (·.amount)).sum < c.total
      · simp [h1, h2] at hs
      · simp [h1, h2, emptyCart]

/-- A cart holding one unit of `p1` at price 10, totals stored. -/
def cartW10 : Cart :=
  ⟨[⟨"p1", "Widget", 10, 0, 1, "manual", 1⟩], 10, 0, 0, 10, none, ""⟩

/-- C10 witness: paying 50 against a cart with total 10 returns change 50 —
the full payment, not 40. -/
theorem checkout_change_witness :
    (CartService.checkout (oneProductDb prodStock5) cartW10 "e1" "s1"
        [⟨"cash", 50, none⟩] "t9" 0).1.change = some 50 := by
  have h := checkout_change_equals_full_payment (oneProductDb prodStock5) cartW10
    "e1" "s1" [⟨"cash", 50, none⟩] "t9" 0 ?hs
  · rw [h]
    norm_num
  case hs =>
    norm_num [CartService.checkout, CartService.createTransaction, cartW10,
      show ("e1" : String) ≠ "" from by decide,
      show ("s1" : String) ≠ "" from by decide]

end POS
